import Mathlib

/-!
Verification of the hostel allocation backend.

Shallow embedding of the core entities and operations:
- `Room` with `assignStudent` / `removeStudent` (src/models/Room.js)
- `Application` records with `approve` / `reject` / `assignRoom`
  (src/models/Application.js) and their route handlers
  (src/routes/applications.js)
- the room assignment / removal route handlers (rooms router)

JavaScript numbers are modelled as `Int` where subtraction occurs
(`occupiedBeds`, `bedNumber`) and as `Nat` for identifiers; thrown
`Error(msg)` values become `Except String` with the exact message
strings; the mongoose collections become lists of records, and
`save()` becomes replacement-by-id in the list.
-/

namespace Hostel

/-- Gender enum from the schemas: `["male", "female"]`. -/
inductive Gender where
  | male
  | female
deriving DecidableEq, Repr

/-- One entry of `roomSchema.occupants`: `{student, assignedDate, bedNumber}`. -/
structure Occupant where
  student : Nat
  bedNumber : Int
  assignedDate : Nat
deriving DecidableEq, Repr

/-- The fields of `roomSchema` that the allocation logic reads or writes. -/
structure Room where
  id : Nat
  capacity : Int
  gender : Gender
  occupiedBeds : Int
  occupants : List Occupant
  isActive : Bool
deriving DecidableEq, Repr

namespace Room

/-- `roomSchema.methods.isAvailable`:
`this.occupiedBeds < this.capacity && this.isActive`. -/
def isAvailable (r : Room) : Bool :=
  decide (r.occupiedBeds < r.capacity) && r.isActive

/-- `roomSchema.methods.assignStudent(studentId)`: throws
"Room is not available" if `!this.isAvailable()`, otherwise pushes
`{student, bedNumber: occupiedBeds + 1, assignedDate}` and increments
`occupiedBeds`. -/
def assignStudent (r : Room) (studentId : Nat) (now : Nat) : Except String Room :=
  if r.isAvailable then
    .ok { r with
      occupants := r.occupants ++ [⟨studentId, r.occupiedBeds + 1, now⟩],
      occupiedBeds := r.occupiedBeds + 1 }
  else
    .error "Room is not available"

/-- `occupants.findIndex((occupant) => occupant.student.toString() === studentId.toString())`,
returning `none` for `-1`. -/
def findOccupantIdx (studentId : Nat) : List Occupant → Option Nat
  | [] => none
  | o :: rest =>
    if o.student == studentId then some 0
    else (findOccupantIdx studentId rest).map (· + 1)

/-- `occupants.forEach((occupant, index) => occupant.bedNumber = index + 1)`,
with `k` the number of elements already passed. -/
def renumberFrom (k : Nat) : List Occupant → List Occupant
  | [] => []
  | o :: rest => { o with bedNumber := (k : Int) + 1 } :: renumberFrom (k + 1) rest

/-- The bed renumbering applied after a removal: occupant at index `i`
gets `bedNumber = i + 1`. -/
def renumber (l : List Occupant) : List Occupant :=
  renumberFrom 0 l

/-- `roomSchema.methods.removeStudent(studentId)`: `findIndex`, throw
"Student not found in this room" on `-1`, else `splice(index, 1)`,
decrement `occupiedBeds`, and reassign bed numbers densely. -/
def removeStudent (r : Room) (studentId : Nat) : Except String Room :=
  match findOccupantIdx studentId r.occupants with
  | none => .error "Student not found in this room"
  | some i =>
    .ok { r with
      occupants := renumber (r.occupants.eraseIdx i),
      occupiedBeds := r.occupiedBeds - 1 }

end Room

/-- The dense bed labels `[s, s+1, ..., s+n-1]`. -/
def bedLabels : Int → Nat → List Int
  | _, 0 => []
  | s, n + 1 => s :: bedLabels (s + 1) n

/-- The three room invariants of the spec: `occupiedBeds` mirrors the
occupant count, never exceeds `capacity`, and the bed numbers are
exactly `{1..occupiedBeds}` with no duplicates. -/
def roomInv (r : Room) : Prop :=
  r.occupiedBeds = r.occupants.length ∧
  r.occupiedBeds ≤ r.capacity ∧
  (r.occupants.map (·.bedNumber)).Perm (bedLabels 1 r.occupants.length)

instance (r : Room) : Decidable (roomInv r) := by
  unfold roomInv; infer_instance

/-! ### Users, applications, and the persistent world -/

/-- The fields of `userSchema` that the allocation logic reads or writes. -/
structure User where
  id : Nat
  gender : Gender
  roomAssigned : Option Nat
deriving DecidableEq, Repr

/-- `applicationSchema.status` enum: `["pending", "approved", "rejected", "assigned"]`. -/
inductive AppStatus where
  | pending
  | approved
  | rejected
  | assigned
deriving DecidableEq, Repr

/-- `applicationSchema.semester` enum: `["first", "second"]`. -/
inductive Semester where
  | first
  | second
deriving DecidableEq, Repr

/-- The fields of `applicationSchema` that the workflow logic reads or writes. -/
structure AppRec where
  id : Nat
  student : Nat
  academicYear : String
  semester : Semester
  status : AppStatus
  assignedRoom : Option Nat
  reviewedBy : Option Nat
  reviewedAt : Option Nat
  reviewComments : String
deriving DecidableEq, Repr

/-- The three mongoose collections the assignment flow touches. -/
structure World where
  users : List User
  rooms : List Room
  apps : List AppRec
deriving DecidableEq, Repr

/-- The HTTP/JSON response envelope: status code, `success`, `message`. -/
structure Resp where
  status : Nat
  success : Bool
  message : String
deriving DecidableEq, Repr

/-- `User.findById`. -/
def findUser (users : List User) (id : Nat) : Option User :=
  users.find? (·.id == id)

/-- `Room.findById`. -/
def findRoom (rooms : List Room) (id : Nat) : Option Room :=
  rooms.find? (·.id == id)

/-- `Application.findById`. -/
def findApp (apps : List AppRec) (id : Nat) : Option AppRec :=
  apps.find? (·.id == id)

/-- `doc.save()`: replace the stored document with the same `_id`. -/
def saveUser (users : List User) (u : User) : List User :=
  users.map (fun x => if x.id == u.id then u else x)

/-- `doc.save()` for rooms. -/
def saveRoom (rooms : List Room) (r : Room) : List Room :=
  rooms.map (fun x => if x.id == r.id then r else x)

/-- `doc.save()` for applications. -/
def saveApp (apps : List AppRec) (a : AppRec) : List AppRec :=
  apps.map (fun x => if x.id == a.id then a else x)

/-- `applicationSchema.methods.approve(adminId, comments)` (the schema trims
`reviewComments` on assignment). -/
def approveApp (a : AppRec) (adminId : Nat) (comments : String) (now : Nat) : AppRec :=
  { a with
    status := .approved,
    reviewedBy := some adminId,
    reviewedAt := some now,
    reviewComments := comments.trim }

/-- `applicationSchema.methods.reject(adminId, comments)`. -/
def rejectApp (a : AppRec) (adminId : Nat) (comments : String) (now : Nat) : AppRec :=
  { a with
    status := .rejected,
    reviewedBy := some adminId,
    reviewedAt := some now,
    reviewComments := comments.trim }

/-- `applicationSchema.methods.assignRoom(roomId)`. -/
def assignRoomApp (a : AppRec) (roomId : Nat) : AppRec :=
  { a with status := .assigned, assignedRoom := some roomId }

/-- `!comments || comments.trim().length === 0` with `none` for a missing field. -/
def commentsMissing : Option String → Bool
  | none => true
  | some s => s.trim.length == 0

/-! ### Route handlers -/

/-- `POST /api/applications/:id/approve` (src/routes/applications.js):
404 when absent, 400 unless the status is `pending`, otherwise
`application.approve(req.user._id, comments)`. -/
def approveRoute (apps : List AppRec) (appId adminId : Nat) (comments : Option String)
    (now : Nat) : List AppRec × Resp :=
  match findApp apps appId with
  | none => (apps, ⟨404, false, "Application not found"⟩)
  | some app =>
    if app.status != .pending then
      (apps, ⟨400, false, "Only pending applications can be approved"⟩)
    else
      (saveApp apps (approveApp app adminId (comments.getD "") now),
       ⟨200, true, "Application approved successfully"⟩)

/-- `POST /api/applications/:id/reject` (src/routes/applications.js):
the comments check comes first, then 404 when absent, then the
pending-status check, then `application.reject(req.user._id, comments)`. -/
def rejectRoute (apps : List AppRec) (appId adminId : Nat) (comments : Option String)
    (now : Nat) : List AppRec × Resp :=
  if commentsMissing comments then
    (apps, ⟨400, false, "Rejection reason is required"⟩)
  else
    match findApp apps appId with
    | none => (apps, ⟨404, false, "Application not found"⟩)
    | some app =>
      if app.status != .pending then
        (apps, ⟨400, false, "Only pending applications can be rejected"⟩)
      else
        (saveApp apps (rejectApp app adminId (comments.getD "") now),
         ⟨200, true, "Application rejected successfully"⟩)

/-- A freshly created `Application` document: `status` defaults to `pending`,
the review and assignment fields to null/empty. -/
def newApp (id student : Nat) (year : String) (sem : Semester) : AppRec :=
  { id := id,
    student := student,
    academicYear := year,
    semester := sem,
    status := .pending,
    assignedRoom := none,
    reviewedBy := none,
    reviewedAt := none,
    reviewComments := "" }

/-- `POST /api/applications/submit` (src/routes/applications.js): reject a
duplicate `(student, academicYear, semester)`, reject a student who already
holds a room, otherwise create the application. -/
def submitRoute (apps : List AppRec) (u : User) (year : String) (sem : Semester)
    (newId : Nat) : List AppRec × Resp :=
  match apps.find? (fun a => a.student == u.id && a.academicYear == year
      && a.semester == sem) with
  | some _ =>
    (apps, ⟨400, false, "You already have an application for this academic year and semester"⟩)
  | none =>
    if u.roomAssigned.isSome then
      (apps, ⟨400, false, "You are already assigned to a room"⟩)
    else
      (apps ++ [newApp newId u.id year sem],
       ⟨201, true, "Application submitted successfully"⟩)

/-- `POST /api/rooms/assign` (rooms router): the validation sequence, then
`room.assignStudent`, then `student.roomAssigned = roomId; student.save()`,
then optionally `application.assignRoom(roomId)`. -/
def assignRoute (w : World) (studentId? roomId? applicationId? : Option Nat)
    (now : Nat) : World × Resp :=
  match studentId?, roomId? with
  | none, _ => (w, ⟨400, false, "Student ID and Room ID are required"⟩)
  | some _, none => (w, ⟨400, false, "Student ID and Room ID are required"⟩)
  | some sid, some rid =>
    match findUser w.users sid with
    | none => (w, ⟨404, false, "Student not found"⟩)
    | some st =>
      if st.roomAssigned.isSome then
        (w, ⟨400, false, "Student is already assigned to a room"⟩)
      else
        match findRoom w.rooms rid with
        | none => (w, ⟨404, false, "Room not found"⟩)
        | some rm =>
          if !rm.isAvailable then
            (w, ⟨400, false, "Room is not available"⟩)
          else if st.gender != rm.gender then
            (w, ⟨400, false, "Student gender does not match room gender"⟩)
          else
            match rm.assignStudent sid now with
            | .error e => (w, ⟨500, false, e⟩)
            | .ok rm' =>
              let w1 : World := { w with rooms := saveRoom w.rooms rm' }
              let w2 : World :=
                { w1 with users := saveUser w1.users { st with roomAssigned := some rid } }
              let w3 : World :=
                match applicationId? with
                | none => w2
                | some aid =>
                  match findApp w2.apps aid with
                  | none => w2
                  | some app => { w2 with apps := saveApp w2.apps (assignRoomApp app rid) }
              (w3, ⟨200, true, "Student assigned to room successfully"⟩)

/-- `POST /api/rooms/:id/remove-student` (rooms router): `room.removeStudent`,
then clear `student.roomAssigned` if the user exists, then
`Application.updateMany({student, assignedRoom: room._id},
{$unset: {assignedRoom: 1}, status: "approved"})`. -/
def removeStudentRoute (w : World) (roomId : Nat) (studentId? : Option Nat) :
    World × Resp :=
  match studentId? with
  | none => (w, ⟨400, false, "Student ID is required"⟩)
  | some sid =>
    match findRoom w.rooms roomId with
    | none => (w, ⟨404, false, "Room not found"⟩)
    | some rm =>
      match rm.removeStudent sid with
      | .error e => (w, ⟨500, false, e⟩)
      | .ok rm' =>
        let w1 : World := { w with rooms := saveRoom w.rooms rm' }
        let w2 : World :=
          match findUser w1.users sid with
          | none => w1
          | some u => { w1 with users := saveUser w1.users { u with roomAssigned := none } }
        let w3 : World :=
          { w2 with apps := w2.apps.map (fun a =>
              if a.student == sid && a.assignedRoom == some rm.id then
                { a with status := .approved, assignedRoom := none }
              else a) }
        (w3, ⟨200, true, "Student removed from room successfully"⟩)

/-- The six validation failures of the assignment orchestration: missing ids,
student not found, student already assigned, room not found, room
unavailable, gender mismatch. -/
def assignValidationFails (w : World) (studentId? roomId? : Option Nat) : Prop :=
  studentId? = none ∨ roomId? = none ∨
  (∃ sid, studentId? = some sid ∧ findUser w.users sid = none) ∨
  (∃ sid st, studentId? = some sid ∧ findUser w.users sid = some st ∧
    st.roomAssigned.isSome = true) ∨
  (∃ rid, roomId? = some rid ∧ findRoom w.rooms rid = none) ∨
  (∃ rid rm, roomId? = some rid ∧ findRoom w.rooms rid = some rm ∧
    rm.isAvailable = false) ∨
  (∃ sid st rid rm, studentId? = some sid ∧ roomId? = some rid ∧
    findUser w.users sid = some st ∧ findRoom w.rooms rid = some rm ∧
    st.gender ≠ rm.gender)

/-! ### Concrete instances used to evaluate the operations -/

/-- Student 101 occupying bed 1. -/
def occ101 : Occupant := ⟨101, 1, 0⟩

/-- A male double with one occupant: available, invariants hold. -/
def roomW : Room := ⟨1, 2, .male, 1, [occ101], true⟩

/-- `roomW` after assigning student 102 at time 5. -/
def roomW_assigned : Room := ⟨1, 2, .male, 2, [occ101, ⟨102, 2, 5⟩], true⟩

/-- `roomW` after removing student 101. -/
def roomW_removed : Room := ⟨1, 2, .male, 0, [], true⟩

/-- A full single: active but at capacity. -/
def roomFull : Room := ⟨2, 1, .male, 1, [occ101], true⟩

/-- An empty, active female double. -/
def roomF : Room := ⟨3, 2, .female, 0, [], true⟩

/-- A male student with no room assigned. -/
def studentM : User := ⟨101, .male, none⟩

/-- A male student already assigned to room 9. -/
def studentAssigned : User := ⟨102, .male, some 9⟩

/-- A pending application of student 101 for 2024/2025, first semester. -/
def appPending : AppRec := ⟨1, 101, "2024/2025", .first, .pending, none, none, none, ""⟩

/-- An already-approved application. -/
def appApproved : AppRec := ⟨2, 101, "2024/2025", .first, .approved, none, none, none, ""⟩

/-- An application already assigned to room 9, held by student 103. -/
def appExisting : AppRec := ⟨3, 103, "2024/2025", .first, .assigned, some 9, none, none, ""⟩

/-- Student 103, currently assigned to room 9. -/
def studentAsg : User := ⟨103, .male, some 9⟩

/-- A world where the requesting student is already assigned elsewhere and
the targeted room has the opposite gender. -/
def wAsg : World := ⟨[studentAssigned], [roomF], []⟩

/-- A world where the student is unassigned and the targeted room has the
opposite gender. -/
def wMismatch : World := ⟨[studentM], [roomF], []⟩

/-- The user occupying `roomW`. -/
def uR : User := ⟨101, .male, some 1⟩

/-- An application of student 101 assigned to room 1 (`roomW`). -/
def appAssigned101 : AppRec := ⟨4, 101, "2024/2025", .first, .assigned, some 1, none, none, ""⟩

/-- An application of another student assigned to another room. -/
def appOther : AppRec := ⟨5, 102, "2024/2025", .first, .assigned, some 2, none, none, ""⟩

/-- The world for the removal scenario: student 101 occupies room 1. -/
def wRemove : World := ⟨[uR], [roomW], [appAssigned101, appOther]⟩

/-! ### List helper lemmas -/

theorem bedLabels_snoc (s : Int) (n : Nat) :
    bedLabels s (n + 1) = bedLabels s n ++ [s + n] := by
  induction n generalizing s with
  | zero => simp [bedLabels]
  | succ m ih =>
    have h1 : bedLabels s (m + 1 + 1) = s :: bedLabels (s + 1) (m + 1) := rfl
    have h2 : bedLabels s (m + 1) = s :: bedLabels (s + 1) m := rfl
    have h3 : s + 1 + (m : Int) = s + ((m + 1 : Nat) : Int) := by push_cast; ring
    rw [h1, ih (s + 1), h3, h2]
    simp

theorem map_eraseIdx (f : α → β) :
    ∀ (l : List α) (i : Nat), (l.eraseIdx i).map f = (l.map f).eraseIdx i := by
  intro l
  induction l with
  | nil => intro i; cases i <;> simp [List.eraseIdx]
  | cons a rest ih => intro i; cases i <;> simp [List.eraseIdx, ih]

theorem length_eraseIdx_of_lt :
    ∀ (l : List α) (i : Nat), i < l.length → (l.eraseIdx i).length = l.length - 1 := by
  intro l
  induction l with
  | nil => intro i h; simp at h
  | cons a rest ih =>
    intro i h
    cases i with
    | zero => simp [List.eraseIdx]
    | succ j =>
      simp only [List.eraseIdx, List.length_cons]
      rw [ih j (by simpa using h)]
      simp at h
      omega

namespace Room

theorem findOccupantIdx_eq_none_iff (sid : Nat) (l : List Occupant) :
    findOccupantIdx sid l = none ↔ sid ∉ l.map (·.student) := by
  induction l with
  | nil => simp [findOccupantIdx]
  | cons o rest ih =>
    by_cases h : o.student = sid
    · simp [findOccupantIdx, h]
    · simp only [findOccupantIdx, beq_iff_eq, h, if_false, Option.map_eq_none',
        List.map_cons, List.mem_cons, ih]
      constructor
      · intro hn h2
        rcases h2 with h2 | hm
        · exact h h2.symm
        · exact hn hm
      · intro hn hm
        exact hn (Or.inr hm)

theorem findOccupantIdx_some (sid : Nat) :
    ∀ (l : List Occupant) (i : Nat), findOccupantIdx sid l = some i →
      i < l.length ∧ ∃ o, l[i]? = some o ∧ o.student = sid := by
  intro l
  induction l with
  | nil => intro i h; simp [findOccupantIdx] at h
  | cons a rest ih =>
    intro i h
    by_cases ha : a.student = sid
    · simp [findOccupantIdx, ha] at h
      subst h
      exact ⟨Nat.succ_pos _, a, by simp, ha⟩
    · simp only [findOccupantIdx, beq_iff_eq, ha, if_false, Option.map_eq_some'] at h
      obtain ⟨j, hj, rfl⟩ := h
      obtain ⟨hlt, o, ho, hos⟩ := ih j hj
      exact ⟨by simpa using Nat.succ_lt_succ hlt, o, by simpa using ho, hos⟩

theorem renumberFrom_map_student (l : List Occupant) :
    ∀ (k : Nat), (renumberFrom k l).map (·.student) = l.map (·.student) := by
  induction l with
  | nil => intro k; simp [renumberFrom]
  | cons o rest ih => intro k; simp [renumberFrom, ih]

theorem renumberFrom_length (l : List Occupant) :
    ∀ (k : Nat), (renumberFrom k l).length = l.length := by
  induction l with
  | nil => intro k; simp [renumberFrom]
  | cons o rest ih => intro k; simp [renumberFrom, ih]

theorem renumberFrom_map_bed (l : List Occupant) :
    ∀ (k : Nat), (renumberFrom k l).map (·.bedNumber) = bedLabels ((k : Int) + 1) l.length := by
  induction l with
  | nil => intro k; simp [renumberFrom, bedLabels]
  | cons o rest ih =>
    intro k
    have h1 : renumberFrom k (o :: rest) =
        { o with bedNumber := (k : Int) + 1 } :: renumberFrom (k + 1) rest := rfl
    have h2 : bedLabels ((k : Int) + 1) (rest.length + 1) =
        ((k : Int) + 1) :: bedLabels ((k : Int) + 1 + 1) rest.length := rfl
    have h3 : ((k + 1 : Nat) : Int) + 1 = (k : Int) + 1 + 1 := by push_cast; ring
    rw [h1, List.map_cons, ih (k + 1), h3, List.length_cons, h2]

theorem renumber_map_bed (l : List Occupant) :
    (renumber l).map (·.bedNumber) = bedLabels 1 l.length := by
  rw [renumber, renumberFrom_map_bed]
  norm_num

theorem renumber_map_student (l : List Occupant) :
    (renumber l).map (·.student) = l.map (·.student) := by
  rw [renumber, renumberFrom_map_student]

theorem renumber_length (l : List Occupant) :
    (renumber l).length = l.length := by
  rw [renumber, renumberFrom_length]

theorem isAvailable_true_iff (r : Room) :
    r.isAvailable = true ↔ r.occupiedBeds < r.capacity ∧ r.isActive = true := by
  simp [isAvailable]

theorem isAvailable_false_iff (r : Room) :
    r.isAvailable = false ↔ r.capacity ≤ r.occupiedBeds ∨ r.isActive = false := by
  rw [isAvailable]
  cases h : r.isActive <;> simp [not_lt]

end Room

/-! ### Claim theorems: the Room entity -/

/-- C1: every room satisfying the three room invariants
(`occupiedBeds = occupants.length`, `occupiedBeds ≤ capacity`, bed
numbers exactly `{1..occupiedBeds}` with no duplicates) still satisfies
them after any successful `assignStudent` or `removeStudent`. -/
theorem roomInv_preserved (r : Room) (sid now : Nat) (hinv : roomInv r) :
    (∀ r', r.assignStudent sid now = .ok r' → roomInv r') ∧
    (∀ r', r.removeStudent sid = .ok r' → roomInv r') := by
  obtain ⟨h1, h2, h3⟩ := hinv
  constructor
  · intro r' h
    by_cases hA : r.isAvailable = true
    · obtain ⟨hlt, _⟩ := (Room.isAvailable_true_iff r).mp hA
      simp only [Room.assignStudent, hA, if_true, Except.ok.injEq] at h
      subst h
      refine ⟨?_, ?_, ?_⟩
      · show r.occupiedBeds + 1 =
          ((r.occupants ++ [Occupant.mk sid (r.occupiedBeds + 1) now]).length : Int)
        rw [List.length_append, List.length_singleton]
        push_cast
        omega
      · show r.occupiedBeds + 1 ≤ r.capacity
        omega
      · show ((r.occupants ++ [Occupant.mk sid (r.occupiedBeds + 1) now]).map
            (·.bedNumber)).Perm
          (bedLabels 1 (r.occupants ++ [Occupant.mk sid (r.occupiedBeds + 1) now]).length)
        rw [List.map_append, List.length_append, List.map_singleton,
          List.length_singleton, bedLabels_snoc]
        have he : (Occupant.mk sid (r.occupiedBeds + 1) now).bedNumber =
            1 + (r.occupants.length : Int) := by
          show r.occupiedBeds + 1 = 1 + (r.occupants.length : Int)
          omega
        rw [he]
        exact h3.append (List.Perm.refl _)
    · simp [Room.assignStudent, hA] at h
  · intro r' h
    cases hf : Room.findOccupantIdx sid r.occupants with
    | none => simp [Room.removeStudent, hf] at h
    | some i =>
      simp only [Room.removeStudent, hf, Except.ok.injEq] at h
      subst h
      obtain ⟨hlt, o, ho, hos⟩ := Room.findOccupantIdx_some sid r.occupants i hf
      refine ⟨?_, ?_, ?_⟩
      · show r.occupiedBeds - 1 = ((Room.renumber (r.occupants.eraseIdx i)).length : Int)
        rw [Room.renumber_length, length_eraseIdx_of_lt _ _ hlt]
        omega
      · show r.occupiedBeds - 1 ≤ r.capacity
        omega
      · show ((Room.renumber (r.occupants.eraseIdx i)).map (·.bedNumber)).Perm
          (bedLabels 1 (Room.renumber (r.occupants.eraseIdx i)).length)
        rw [Room.renumber_map_bed, Room.renumber_length]

/-- C1 witness: a concrete room satisfying the invariants keeps them
after assigning student 102 and after removing student 101. -/
theorem roomInv_preserved_witness :
    roomInv roomW ∧ roomInv roomW_assigned ∧ roomInv roomW_removed :=
  ⟨by decide,
   (roomInv_preserved roomW 102 5 (by decide)).1 roomW_assigned (by rfl),
   (roomInv_preserved roomW 101 0 (by decide)).2 roomW_removed (by rfl)⟩

/-- C2: on an available room `assignStudent` appends exactly one occupant
with `bedNumber = occupiedBeds + 1` and increments `occupiedBeds`; on a
room that is not available — i.e. full or inactive — it fails with the
capacity error ("Room is not available") and returns no mutated room. -/
theorem assignStudent_spec (r : Room) (sid now : Nat) :
    (r.isAvailable = false ↔ r.capacity ≤ r.occupiedBeds ∨ r.isActive = false) ∧
    (r.isAvailable = true →
      r.assignStudent sid now = .ok { r with
        occupants := r.occupants ++ [⟨sid, r.occupiedBeds + 1, now⟩],
        occupiedBeds := r.occupiedBeds + 1 }) ∧
    (r.isAvailable = false →
      r.assignStudent sid now = .error "Room is not available") := by
  refine ⟨Room.isAvailable_false_iff r, ?_, ?_⟩
  · intro h
    simp [Room.assignStudent, h]
  · intro h
    simp [Room.assignStudent, h]

/-- C2 witness: the concrete available room accepts student 102 with bed
number 2; the full room fails with the capacity error. -/
theorem assignStudent_spec_witness :
    roomW.assignStudent 102 5 = .ok { roomW with
      occupants := roomW.occupants ++ [⟨102, roomW.occupiedBeds + 1, 5⟩],
      occupiedBeds := roomW.occupiedBeds + 1 } ∧
    roomFull.assignStudent 102 5 = .error "Room is not available" :=
  ⟨(assignStudent_spec roomW 102 5).2.1 (by decide),
   (assignStudent_spec roomFull 102 5).2.2 (by decide)⟩

/-- C3: when the student occurs in `occupants`, `removeStudent` removes
that occupant record (the first with this student id, preserving the
order of the rest), decrements `occupiedBeds` by 1, and renumbers the
remaining occupants' bed numbers densely `1..n` in list order; when the
student is absent it fails with the not-an-occupant error and returns no
mutated room. -/
theorem removeStudent_spec (r : Room) (sid : Nat) :
    (sid ∈ r.occupants.map (·.student) →
      ∃ i r', Room.findOccupantIdx sid r.occupants = some i ∧
        r.removeStudent sid = .ok r' ∧
        (r.occupants.map (·.student))[i]? = some sid ∧
        r'.occupants.map (·.student) = (r.occupants.map (·.student)).eraseIdx i ∧
        r'.occupiedBeds = r.occupiedBeds - 1 ∧
        r'.occupants.map (·.bedNumber) = bedLabels 1 r'.occupants.length) ∧
    (sid ∉ r.occupants.map (·.student) →
      r.removeStudent sid = .error "Student not found in this room") := by
  constructor
  · intro hmem
    cases hf : Room.findOccupantIdx sid r.occupants with
    | none => exact absurd hmem ((Room.findOccupantIdx_eq_none_iff sid r.occupants).mp hf)
    | some i =>
      obtain ⟨hlt, o, ho, hos⟩ := Room.findOccupantIdx_some sid r.occupants i hf
      have heq : r.removeStudent sid = .ok { r with
          occupants := Room.renumber (r.occupants.eraseIdx i),
          occupiedBeds := r.occupiedBeds - 1 } := by
        simp [Room.removeStudent, hf]
      refine ⟨i, _, rfl, heq, ?_, ?_, rfl, ?_⟩
      · rw [List.getElem?_map, ho, Option.map_some', hos]
      · show (Room.renumber (r.occupants.eraseIdx i)).map (·.student) =
          (r.occupants.map (·.student)).eraseIdx i
        rw [Room.renumber_map_student, map_eraseIdx]
      · show (Room.renumber (r.occupants.eraseIdx i)).map (·.bedNumber) =
          bedLabels 1 (Room.renumber (r.occupants.eraseIdx i)).length
        rw [Room.renumber_map_bed, Room.renumber_length]
  · intro hmem
    have hf := (Room.findOccupantIdx_eq_none_iff sid r.occupants).mpr hmem
    simp [Room.removeStudent, hf]

/-- C3 witness: removing student 101 from the concrete room succeeds and
the claimed post-state facts hold there. -/
theorem removeStudent_spec_witness :
    ∃ i r', Room.findOccupantIdx 101 roomW.occupants = some i ∧
      roomW.removeStudent 101 = .ok r' ∧
      (roomW.occupants.map (·.student))[i]? = some 101 ∧
      r'.occupants.map (·.student) = (roomW.occupants.map (·.student)).eraseIdx i ∧
      r'.occupiedBeds = roomW.occupiedBeds - 1 ∧
      r'.occupants.map (·.bedNumber) = bedLabels 1 r'.occupants.length :=
  (removeStudent_spec roomW 101).1 (by decide)

/-- C10: the Room entity's `assignStudent` enforces only the availability
precondition: for every available room and every student id it succeeds
and appends the occupant, with no hypothesis about the student's gender
and none about the student id already occurring in `occupants` — those
checks live only in the route handler. -/
theorem assignStudent_only_availability (r : Room) (sid now : Nat)
    (h : r.isAvailable = true) :
    r.assignStudent sid now = .ok { r with
      occupants := r.occupants ++ [⟨sid, r.occupiedBeds + 1, now⟩],
      occupiedBeds := r.occupiedBeds + 1 } := by
  simp [Room.assignStudent, h]

/-- C10 witness: student 101 already occupies the room, yet assigning 101
again succeeds, duplicating the student. -/
theorem assignStudent_only_availability_witness :
    101 ∈ roomW.occupants.map (·.student) ∧
    roomW.assignStudent 101 7 = .ok { roomW with
      occupants := roomW.occupants ++ [⟨101, roomW.occupiedBeds + 1, 7⟩],
      occupiedBeds := roomW.occupiedBeds + 1 } :=
  ⟨by decide, assignStudent_only_availability roomW 101 7 (by decide)⟩

/-! ### Helper lemmas for the store model -/

/-- `find?` after a save-by-id: if the id was present, looking it up again
returns the saved document. -/
theorem find?_save {α : Type} (getId : α → Nat) (l : List α) (i : Nat) (u v : α)
    (h : l.find? (fun x => getId x == i) = some u)
    (hv : getId v = getId u) :
    (l.map (fun x => if getId x == getId v then v else x)).find?
      (fun x => getId x == i) = some v := by
  have hui : getId u = i := by simpa using List.find?_some h
  induction l with
  | nil => simp at h
  | cons x rest ih =>
    by_cases hx : (getId x == i) = true
    · have hfx : (x :: rest).find? (fun y => getId y == i) = some x :=
        List.find?_cons_of_pos _ hx
      have hxu : x = u := by rw [hfx] at h; exact Option.some.inj h
      subst hxu
      have hid : (getId x == getId v) = true := by simp [hv]
      have hpv : (getId v == i) = true := by simp [hv, hui]
      rw [List.map_cons, if_pos hid]
      exact List.find?_cons_of_pos _ hpv
    · rw [@List.find?_cons_of_neg _ (fun y => getId y == i) x rest hx] at h
      have hx' : ¬ getId x = i := by simpa using hx
      have hxv : ¬ (getId x == getId v) = true := by simp [hv, hui, hx']
      rw [List.map_cons, if_neg hxv,
        @List.find?_cons_of_neg _ (fun y => getId y == i) x
          (rest.map (fun x => if getId x == getId v then v else x)) hx]
      exact ih h

/-- Looking up a user after `saveUser` of a same-id document. -/
theorem findUser_saveUser (users : List User) (i : Nat) (u v : User)
    (h : findUser users i = some u) (hv : v.id = u.id) :
    findUser (saveUser users v) i = some v :=
  find?_save User.id users i u v h hv

/-- Looking up an application after `saveApp` of a same-id document. -/
theorem findApp_saveApp (apps : List AppRec) (i : Nat) (u v : AppRec)
    (h : findApp apps i = some u) (hv : v.id = u.id) :
    findApp (saveApp apps v) i = some v :=
  find?_save AppRec.id apps i u v h hv

/-- Common lemma for C6: on an application that is not `pending`, approve
fails with the state error, and reject fails too — with the state error
whenever its comments pass the input check — leaving the store unchanged. -/
theorem approve_reject_blocked (apps : List AppRec) (appId adminId : Nat)
    (comments : Option String) (now : Nat) (app : AppRec)
    (hfind : findApp apps appId = some app) (hnp : app.status ≠ .pending) :
    approveRoute apps appId adminId comments now =
      (apps, ⟨400, false, "Only pending applications can be approved"⟩) ∧
    (rejectRoute apps appId adminId comments now).1 = apps ∧
    (rejectRoute apps appId adminId comments now).2.success = false ∧
    (commentsMissing comments = false →
      rejectRoute apps appId adminId comments now =
        (apps, ⟨400, false, "Only pending applications can be rejected"⟩)) := by
  have hbne : (app.status != AppStatus.pending) = true := by simp [hnp]
  refine ⟨by simp [approveRoute, hfind, hbne], ?_⟩
  by_cases hc : commentsMissing comments = true
  · refine ⟨?_, ?_, ?_⟩ <;> simp [rejectRoute, hc]
  · have hc' : commentsMissing comments = false := by simpa using hc
    refine ⟨?_, ?_, ?_⟩ <;> simp [rejectRoute, hc', hfind, hbne]

/-! ### Claim theorems: the application workflow -/

/-- C7: a reject request whose comments are missing, empty, or
whitespace-only fails with the validation error before anything is
looked up or mutated: the application store is returned unchanged. -/
theorem reject_requires_comments (apps : List AppRec) (appId adminId : Nat)
    (comments : Option String) (now : Nat) (h : commentsMissing comments = true) :
    rejectRoute apps appId adminId comments now =
      (apps, ⟨400, false, "Rejection reason is required"⟩) := by
  simp [rejectRoute, h]

/-- C7 witness: a missing comments field on a pending application is
rejected with the validation error and the store is unchanged. -/
theorem reject_requires_comments_witness :
    commentsMissing none = true ∧
    rejectRoute [appPending] 1 99 none 0 =
      ([appPending], ⟨400, false, "Rejection reason is required"⟩) :=
  ⟨rfl, reject_requires_comments [appPending] 1 99 none 0 rfl⟩

/-- C6 counterexample: an application that is not pending, on which a
reject request (with no comments) fails with the ValidationError message
"Rejection reason is required" rather than the StateError message — so
"both operations fail with a StateError" is false as stated. -/
theorem approve_reject_lifecycle_counterexample :
    appApproved.status ≠ .pending ∧
    findApp [appApproved] 2 = some appApproved ∧
    (rejectRoute [appApproved] 2 99 none 0).2.success = false ∧
    (rejectRoute [appApproved] 2 99 none 0).2.message = "Rejection reason is required" ∧
    (rejectRoute [appApproved] 2 99 none 0).2.message ≠
      "Only pending applications can be rejected" := by
  decide

/-- C6 (amended): approve and reject succeed only while the application is
pending. On a non-pending application both fail and change nothing —
approve always with the StateError message, reject with the StateError
message whenever its comments pass input validation (otherwise with the
ValidationError message). On a pending application a successful approve
or reject sets status, reviewedBy, reviewedAt and reviewComments, and
afterwards every further approve or reject fails and changes nothing. -/
theorem approve_reject_lifecycle (apps : List AppRec) (appId adminId : Nat)
    (comments : Option String) (now : Nat) (app : AppRec)
    (hfind : findApp apps appId = some app) :
    (app.status ≠ .pending →
      approveRoute apps appId adminId comments now =
        (apps, ⟨400, false, "Only pending applications can be approved"⟩) ∧
      (rejectRoute apps appId adminId comments now).1 = apps ∧
      (rejectRoute apps appId adminId comments now).2.success = false ∧
      (commentsMissing comments = false →
        rejectRoute apps appId adminId comments now =
          (apps, ⟨400, false, "Only pending applications can be rejected"⟩))) ∧
    (app.status = .pending →
      (approveRoute apps appId adminId comments now =
          (saveApp apps (approveApp app adminId (comments.getD "") now),
           ⟨200, true, "Application approved successfully"⟩) ∧
        (approveApp app adminId (comments.getD "") now).status = .approved ∧
        (approveApp app adminId (comments.getD "") now).reviewedBy = some adminId ∧
        (approveApp app adminId (comments.getD "") now).reviewedAt = some now ∧
        (approveApp app adminId (comments.getD "") now).reviewComments =
          (comments.getD "").trim) ∧
      (commentsMissing comments = false →
        rejectRoute apps appId adminId comments now =
          (saveApp apps (rejectApp app adminId (comments.getD "") now),
           ⟨200, true, "Application rejected successfully"⟩) ∧
        (rejectApp app adminId (comments.getD "") now).status = .rejected ∧
        (rejectApp app adminId (comments.getD "") now).reviewedBy = some adminId ∧
        (rejectApp app adminId (comments.getD "") now).reviewedAt = some now) ∧
      (∀ c2 a2 t2,
        (approveRoute (saveApp apps (approveApp app adminId (comments.getD "") now))
          appId a2 c2 t2).2.success = false ∧
        (rejectRoute (saveApp apps (approveApp app adminId (comments.getD "") now))
          appId a2 c2 t2).2.success = false) ∧
      (∀ c2 a2 t2,
        (approveRoute (saveApp apps (rejectApp app adminId (comments.getD "") now))
          appId a2 c2 t2).2.success = false ∧
        (rejectRoute (saveApp apps (rejectApp app adminId (comments.getD "") now))
          appId a2 c2 t2).2.success = false)) := by
  constructor
  · intro hnp
    exact approve_reject_blocked apps appId adminId comments now app hfind hnp
  · intro hp
    have hbne : (app.status != AppStatus.pending) = false := by simp [hp]
    refine ⟨⟨by simp [approveRoute, hfind, hbne], rfl, rfl, rfl, rfl⟩, ?_, ?_, ?_⟩
    · intro hc
      exact ⟨by simp [rejectRoute, hc, hfind, hbne], rfl, rfl, rfl⟩
    · intro c2 a2 t2
      have hf2 : findApp (saveApp apps (approveApp app adminId (comments.getD "") now))
          appId = some (approveApp app adminId (comments.getD "") now) :=
        findApp_saveApp apps appId app _ hfind rfl
      have hb := approve_reject_blocked _ appId a2 c2 t2 _ hf2 (by simp [approveApp])
      exact ⟨by rw [hb.1], hb.2.2.1⟩
    · intro c2 a2 t2
      have hf2 : findApp (saveApp apps (rejectApp app adminId (comments.getD "") now))
          appId = some (rejectApp app adminId (comments.getD "") now) :=
        findApp_saveApp apps appId app _ hfind rfl
      have hb := approve_reject_blocked _ appId a2 c2 t2 _ hf2 (by simp [rejectApp])
      exact ⟨by rw [hb.1], hb.2.2.1⟩

/-- C6 witness: approving a concrete pending application succeeds, and a
second approve on the result fails. -/
theorem approve_reject_lifecycle_witness :
    approveRoute [appPending] 1 99 (some "ok") 5 =
      (saveApp [appPending] (approveApp appPending 99 "ok" 5),
       ⟨200, true, "Application approved successfully"⟩) ∧
    (approveRoute (saveApp [appPending] (approveApp appPending 99 "ok" 5))
      1 99 (some "x") 6).2.success = false := by
  have h := (approve_reject_lifecycle [appPending] 1 99 (some "ok") 5 appPending rfl).2 rfl
  exact ⟨h.1.1, (h.2.2.1 (some "x") 99 6).1⟩

/-- C5 counterexample: a request whose student gender differs from the
room gender, but where the student is already assigned elsewhere: it
fails with the already-assigned message, not the gender-mismatch
message, refuting "always fails with a GenderMismatch error". -/
theorem gender_mismatch_counterexample :
    studentAssigned.gender ≠ roomF.gender ∧
    findUser wAsg.users 102 = some studentAssigned ∧
    findRoom wAsg.rooms 3 = some roomF ∧
    (assignRoute wAsg (some 102) (some 3) none 0).2.success = false ∧
    (assignRoute wAsg (some 102) (some 3) none 0).2.message =
      "Student is already assigned to a room" ∧
    (assignRoute wAsg (some 102) (some 3) none 0).2.message ≠
      "Student gender does not match room gender" := by
  decide

/-- C5 (amended): whenever the requested student and room exist and their
genders differ, assignment fails and the whole state — in particular the
targeted room — is unchanged; the error is the GenderMismatch message
whenever the student is unassigned and the room available (otherwise an
earlier validation step reports its own error first). -/
theorem gender_mismatch_fails (w : World) (sid rid : Nat) (aid : Option Nat)
    (now : Nat) (st : User) (rm : Room)
    (hu : findUser w.users sid = some st)
    (hr : findRoom w.rooms rid = some rm)
    (hg : st.gender ≠ rm.gender) :
    (assignRoute w (some sid) (some rid) aid now).1 = w ∧
    (assignRoute w (some sid) (some rid) aid now).2.success = false ∧
    (st.roomAssigned = none → rm.isAvailable = true →
      (assignRoute w (some sid) (some rid) aid now).2.message =
        "Student gender does not match room gender") := by
  have hg' : (st.gender != rm.gender) = true := by simp [hg]
  by_cases ha : st.roomAssigned.isSome = true
  · have hnone : ¬ st.roomAssigned = none := by
      cases hso : st.roomAssigned <;> simp [hso] at ha ⊢
    refine ⟨?_, ?_, ?_⟩ <;> simp [assignRoute, hu, ha, hnone]
  · have ha' : st.roomAssigned.isSome = false := by simpa using ha
    by_cases hv : rm.isAvailable = true
    · refine ⟨?_, ?_, ?_⟩ <;> simp [assignRoute, hu, hr, ha', hv, hg']
    · have hv' : rm.isAvailable = false := by simpa using hv
      refine ⟨?_, ?_, ?_⟩ <;> simp [assignRoute, hu, hr, ha', hv', hg', hv]

/-- C5 witness: unassigned male student, available female room: the
request fails with the gender-mismatch message and changes nothing. -/
theorem gender_mismatch_fails_witness :
    (assignRoute wMismatch (some 101) (some 3) none 0).1 = wMismatch ∧
    (assignRoute wMismatch (some 101) (some 3) none 0).2.success = false ∧
    (assignRoute wMismatch (some 101) (some 3) none 0).2.message =
      "Student gender does not match room gender" := by
  have h := gender_mismatch_fails wMismatch 101 3 none 0 studentM roomF rfl rfl (by decide)
  exact ⟨h.1, h.2.1, h.2.2 rfl (by decide)⟩

/-- C8 counterexample: student 103 has an application for (2024/2025,
first) and is currently assigned a room; submitting for the second
semester — a different key, which the claim says succeeds — fails with
the already-assigned check. -/
theorem submit_different_semester_counterexample :
    (¬ ∃ a ∈ [appExisting], a.student = studentAsg.id ∧
      a.academicYear = "2024/2025" ∧ a.semester = Semester.second) ∧
    (submitRoute [appExisting] studentAsg "2024/2025" .second 7).1 = [appExisting] ∧
    (submitRoute [appExisting] studentAsg "2024/2025" .second 7).2.success = false := by
  decide

/-- C8 (amended): a second submission with the same
(student, academicYear, semester) key fails with the conflict error and
creates no record — never overwriting the existing application — while a
submission under a different key succeeds provided the student is not
currently assigned to a room (otherwise the already-assigned check
rejects it). -/
theorem submit_unique_per_term (apps : List AppRec) (u : User) (year : String)
    (sem : Semester) (newId : Nat) :
    ((∃ a ∈ apps, a.student = u.id ∧ a.academicYear = year ∧ a.semester = sem) →
      submitRoute apps u year sem newId =
        (apps, ⟨400, false,
          "You already have an application for this academic year and semester"⟩)) ∧
    ((¬ ∃ a ∈ apps, a.student = u.id ∧ a.academicYear = year ∧ a.semester = sem) →
      u.roomAssigned = none →
      submitRoute apps u year sem newId =
        (apps ++ [newApp newId u.id year sem],
         ⟨201, true, "Application submitted successfully"⟩) ∧
      (newApp newId u.id year sem).status = .pending) := by
  have hiff : ∀ a : AppRec,
      (a.student == u.id && a.academicYear == year && a.semester == sem) = true ↔
      (a.student = u.id ∧ a.academicYear = year ∧ a.semester = sem) := by
    intro a
    simp [Bool.and_eq_true, and_assoc]
  constructor
  · intro hex
    cases hf : apps.find? (fun a => a.student == u.id && a.academicYear == year
        && a.semester == sem) with
    | none =>
      exfalso
      obtain ⟨a, ha, hprop⟩ := hex
      exact (List.find?_eq_none.mp hf a ha) ((hiff a).mpr hprop)
    | some a0 =>
      simp [submitRoute, hf]
  · intro hnex hroom
    have hf : apps.find? (fun a => a.student == u.id && a.academicYear == year
        && a.semester == sem) = none := by
      refine List.find?_eq_none.mpr ?_
      intro x hx hpx
      exact hnex ⟨x, hx, (hiff x).mp hpx⟩
    have hro : u.roomAssigned.isSome = false := by simp [hroom]
    exact ⟨by simp [submitRoute, hf, hro], rfl⟩

/-- C8 witness: a duplicate (2024/2025, first) submission for student 101
fails with the conflict error; the same student's (2024/2025, second)
submission succeeds and appends a pending application. -/
theorem submit_unique_per_term_witness :
    submitRoute [appPending] studentM "2024/2025" .first 7 =
      ([appPending], ⟨400, false,
        "You already have an application for this academic year and semester"⟩) ∧
    submitRoute [appPending] studentM "2024/2025" .second 7 =
      ([appPending] ++ [newApp 7 studentM.id "2024/2025" Semester.second],
       ⟨201, true, "Application submitted successfully"⟩) := by
  have h1 := (submit_unique_per_term [appPending] studentM "2024/2025" .first 7).1
    (by decide)
  have h2 := (submit_unique_per_term [appPending] studentM "2024/2025" .second 7).2
    (by decide) rfl
  exact ⟨h1, h2.1⟩

/-- C4: every failure of the assignment validation steps — missing ids,
student not found, student already assigned, room not found, room
unavailable, or gender mismatch — returns a success:false envelope and
leaves the whole world (rooms, users, applications) untouched. -/
theorem assign_validation_leaves_world (w : World) (s r a : Option Nat) (now : Nat)
    (h : assignValidationFails w s r) :
    (assignRoute w s r a now).1 = w ∧ (assignRoute w s r a now).2.success = false := by
  rcases h with rfl | rfl | ⟨sid, rfl, hufail⟩ | ⟨sid, st, rfl, hu, hra⟩ |
    ⟨rid, rfl, hrfail⟩ | ⟨rid, rm, rfl, hrm, hav⟩ |
    ⟨sid, st, rid, rm, rfl, rfl, hu, hrm, hg⟩
  · exact ⟨rfl, rfl⟩
  · cases s <;> exact ⟨rfl, rfl⟩
  · cases r with
    | none => exact ⟨rfl, rfl⟩
    | some rid => constructor <;> simp [assignRoute, hufail]
  · cases r with
    | none => exact ⟨rfl, rfl⟩
    | some rid => constructor <;> simp [assignRoute, hu, hra]
  · cases s with
    | none => exact ⟨rfl, rfl⟩
    | some sid =>
      cases hu : findUser w.users sid with
      | none => constructor <;> simp [assignRoute, hu]
      | some st =>
        by_cases hra : st.roomAssigned.isSome = true
        · constructor <;> simp [assignRoute, hu, hra]
        · have hra' : st.roomAssigned.isSome = false := by simpa using hra
          constructor <;> simp [assignRoute, hu, hra', hrfail]
  · cases s with
    | none => exact ⟨rfl, rfl⟩
    | some sid =>
      cases hu : findUser w.users sid with
      | none => constructor <;> simp [assignRoute, hu]
      | some st =>
        by_cases hra : st.roomAssigned.isSome = true
        · constructor <;> simp [assignRoute, hu, hra]
        · have hra' : st.roomAssigned.isSome = false := by simpa using hra
          constructor <;> simp [assignRoute, hu, hra', hrm, hav]
  · by_cases hra : st.roomAssigned.isSome = true
    · constructor <;> simp [assignRoute, hu, hra]
    · have hra' : st.roomAssigned.isSome = false := by simpa using hra
      by_cases hav : rm.isAvailable = true
      · have hg' : (st.gender != rm.gender) = true := by simp [hg]
        constructor <;> simp [assignRoute, hu, hrm, hra', hav, hg']
      · have hav' : rm.isAvailable = false := by simpa using hav
        constructor <;> simp [assignRoute, hu, hrm, hra', hav']

/-- C4 witness: assigning an unknown student in the empty world fails and
changes nothing. -/
theorem assign_validation_leaves_world_witness :
    (assignRoute ⟨[], [], []⟩ (some 1) (some 2) none 0).1 = (⟨[], [], []⟩ : World) ∧
    (assignRoute ⟨[], [], []⟩ (some 1) (some 2) none 0).2.success = false :=
  assign_validation_leaves_world ⟨[], [], []⟩ (some 1) (some 2) none 0
    (Or.inr (Or.inr (Or.inl ⟨1, rfl, rfl⟩)))

/-- C9: removing an occupant student from a room succeeds, clears the
student's `roomAssigned`, and resets exactly those applications of that
student whose `assignedRoom` is that room to `approved` with
`assignedRoom` cleared; every other application is unchanged. -/
theorem remove_student_resets (w : World) (roomId sid : Nat) (rm : Room) (u : User)
    (hr : findRoom w.rooms roomId = some rm)
    (hmem : sid ∈ rm.occupants.map (·.student))
    (hu : findUser w.users sid = some u) :
    (removeStudentRoute w roomId (some sid)).2.success = true ∧
    findUser (removeStudentRoute w roomId (some sid)).1.users sid =
      some { u with roomAssigned := none } ∧
    (removeStudentRoute w roomId (some sid)).1.apps.length = w.apps.length ∧
    (∀ (j : Nat) (a : AppRec), w.apps[j]? = some a →
      (removeStudentRoute w roomId (some sid)).1.apps[j]? =
        some (if a.student = sid ∧ a.assignedRoom = some rm.id then
          { a with status := .approved, assignedRoom := none } else a)) := by
  cases hf : Room.findOccupantIdx sid rm.occupants with
  | none => exact absurd hmem ((Room.findOccupantIdx_eq_none_iff sid rm.occupants).mp hf)
  | some i =>
    have hrem : rm.removeStudent sid = .ok { rm with
        occupants := Room.renumber (rm.occupants.eraseIdx i),
        occupiedBeds := rm.occupiedBeds - 1 } := by
      simp [Room.removeStudent, hf]
    refine ⟨?_, ?_, ?_, ?_⟩
    · simp [removeStudentRoute, hr, hrem, hu]
    · simp only [removeStudentRoute, hr, hrem, hu]
      exact findUser_saveUser w.users sid u _ hu rfl
    · simp [removeStudentRoute, hr, hrem, hu]
    · intro j a hj
      simp only [removeStudentRoute, hr, hrem, hu]
      rw [List.getElem?_map, hj, Option.map_some']
      by_cases h1 : a.student = sid <;> by_cases h2 : a.assignedRoom = some rm.id <;>
        simp [h1, h2]

/-- C9 witness: removing student 101 from room 1 resets their assigned
application to approved with the room pointer cleared, clears the user's
room, and leaves the other student's application unchanged. -/
theorem remove_student_resets_witness :
    (removeStudentRoute wRemove 1 (some 101)).2.success = true ∧
    findUser (removeStudentRoute wRemove 1 (some 101)).1.users 101 =
      some { uR with roomAssigned := none } ∧
    (removeStudentRoute wRemove 1 (some 101)).1.apps[0]? =
      some { appAssigned101 with status := .approved, assignedRoom := none } ∧
    (removeStudentRoute wRemove 1 (some 101)).1.apps[1]? = some appOther := by
  have h := remove_student_resets wRemove 1 101 roomW uR rfl (by decide) rfl
  refine ⟨h.1, h.2.1, ?_, ?_⟩
  · have h0 := h.2.2.2 0 appAssigned101 rfl
    simpa using h0
  · have h1 := h.2.2.2 1 appOther rfl
    simpa using h1

end Hostel
